import Mathlib

/-!
Verification of the plume image-compression core: a shallow embedding of the
compression engine, settings, statistics, estimation, and progress-animation
logic from `src-tauri/src/domain/compression/`, with theorems checking the
specification's claims against it.

Floating-point values (`f64`) are modelled as exact rationals (`ℚ`): every
arithmetic operation the embedded code performs on them (addition,
subtraction, multiplication, division by powers of ten, `min`, comparisons
against literals) is exact at the magnitudes involved, so branch outcomes and
stated equalities coincide with the `f64` computation.
-/

namespace Plume

/-- `OutputFormat` from `formats.rs`: the closed set of target codecs. -/
inductive OutputFormat : Type
  | Png
  | Jpeg
  | WebP
deriving DecidableEq, Repr

/-- `str::to_lowercase()` as used on format tokens. Lean core's
`String.toLower` iterates over byte positions in a way the kernel cannot
evaluate, so the embedding maps `Char.toLower` over the character list
instead — identical on the ASCII format strings this code handles. -/
def to_lowercase (s : String) : String :=
  String.mk (s.data.map Char.toLower)

/-- `OutputFormat::from_string` from `formats.rs`. -/
def OutputFormat.from_string (format : String) : Option OutputFormat :=
  if to_lowercase format = "png" then some OutputFormat.Png
  else if to_lowercase format = "jpeg" ∨ to_lowercase format = "jpg" then some OutputFormat.Jpeg
  else if to_lowercase format = "webp" then some OutputFormat.WebP
  else none

/-- `CompressionSettings` from `settings.rs`; `quality` is a `u8` in the
source, modelled as `Nat` (all claims are about clamping into `[1,100]`,
which holds on the whole of `Nat`). -/
structure CompressionSettings : Type where
  quality : Nat
  format : OutputFormat
  preserve_metadata : Bool
  optimize_alpha : Bool
deriving DecidableEq, Repr

/-- `CompressionSettings::new`: `quality.clamp(1, 100)` is
`min (max quality 1) 100`. -/
def CompressionSettings.new (quality : Nat) (format : OutputFormat) :
    CompressionSettings :=
  { quality := min (max quality 1) 100
    format := format
    preserve_metadata := false
    optimize_alpha := true }

/-- `CompressionSettings::with_quality` (builder, re-clamps). -/
def CompressionSettings.with_quality (s : CompressionSettings) (quality : Nat) :
    CompressionSettings :=
  { s with quality := min (max quality 1) 100 }

/-- `CompressionSettings::with_metadata_preservation` (builder). -/
def CompressionSettings.with_metadata_preservation (s : CompressionSettings)
    (preserve : Bool) : CompressionSettings :=
  { s with preserve_metadata := preserve }

/-- `CompressionSettings::with_alpha_optimization` (builder). -/
def CompressionSettings.with_alpha_optimization (s : CompressionSettings)
    (optimize : Bool) : CompressionSettings :=
  { s with optimize_alpha := optimize }

/-- `CompressionSettings::is_valid`: `(1..=100).contains(&self.quality)`. -/
def CompressionSettings.is_valid (s : CompressionSettings) : Bool :=
  decide (1 ≤ s.quality) && decide (s.quality ≤ 100)

/-- `EstimationResult` from `stats.rs` (fields `percent`, `ratio`,
`confidence` are `f64`, modelled as `ℚ`). -/
structure EstimationResult : Type where
  percent : ℚ
  ratio : ℚ
  confidence : ℚ
  sample_count : Nat
deriving DecidableEq, Repr

/-- `get_size_range` from `stats.rs`: `0..=1_000_000 => "small"`,
`1_000_001..=5_000_000 => "medium"`, `_ => "large"`. -/
def get_size_range (size_bytes : Nat) : String :=
  if size_bytes ≤ 1000000 then "small"
  else if size_bytes ≤ 5000000 then "medium"
  else "large"

/-- `CompressionStat` from `stats.rs`. `size_reduction_percent : f64` is
modelled as `ℚ`; `u64`/`u8` fields as `Nat`; `id : Option<i64>` as
`Option Int`. -/
structure CompressionStat : Type where
  id : Option Int
  input_format : String
  output_format : String
  input_size_range : String
  quality_setting : Nat
  lossy_mode : Bool
  size_reduction_percent : ℚ
  original_size : Nat
  compressed_size : Nat
  compression_time_ms : Option Nat
  timestamp : String
  image_type : Option String
deriving DecidableEq, Repr

/-- `EstimationQuery` from `stats.rs`. -/
structure EstimationQuery : Type where
  input_format : String
  output_format : String
  original_size : Nat
  quality_setting : Nat
  lossy_mode : Bool
deriving DecidableEq, Repr

/-- Release-mode semantics of `u64` subtraction `a - b`: the result modulo
`2^64` (for `a b < 2^64` this is `a - b` when `b ≤ a` and wraps around
otherwise; a build with overflow checks panics instead in the wrapping
case). Both `CompressionOutput::new` (`engine.rs`) and `create_stat`
(`stats.rs`) subtract `compressed_size` from `original_size` with this
operator. -/
def u64_sub_wrap (a b : Nat) : Nat :=
  (a + 2 ^ 64 - b) % 2 ^ 64

/-- `create_stat` from `stats.rs`. The source stamps `timestamp` with the
current wall-clock time (`chrono::Utc::now().to_rfc3339()`); the clock
reading is passed in as the explicit argument `now`. -/
def create_stat (input_format output_format : String)
    (original_size compressed_size : Nat) (settings : CompressionSettings)
    (now : String) : CompressionStat :=
  let size_reduction_percent : ℚ :=
    if 0 < original_size then
      ((u64_sub_wrap original_size compressed_size : ℚ) / (original_size : ℚ)) * 100
    else 0
  { id := none
    input_format := input_format
    output_format := output_format
    input_size_range := get_size_range original_size
    quality_setting := settings.quality
    lossy_mode := decide (settings.quality < 90)
    size_reduction_percent := size_reduction_percent
    original_size := original_size
    compressed_size := compressed_size
    compression_time_ms := none
    timestamp := now
    image_type := none }

/-- `estimate_compression` from `stats.rs`: the static heuristic table keyed
by the lowercased `(input_format, output_format)` pair. The sequential Rust
`match` is rendered as the equivalent `if`-chain over string equality; the
final `sample_count` is the source's simulated
`if confidence > 0.7 { 100 } else { 10 }`. -/
def estimate_compression (input_format output_format : String)
    (_original_size : Nat) (settings : CompressionSettings) : EstimationResult :=
  let inf := to_lowercase input_format
  let outf := to_lowercase output_format
  let pc : ℚ × ℚ :=
    if inf = "png" ∧ outf = "webp" then
      if settings.quality < 90 then (85, 9/10) else (43, 8/10)
    else if (inf = "jpg" ∨ inf = "jpeg") ∧ outf = "webp" then (25, 7/10)
    else if inf = "png" ∧ outf = "png" then (15, 9/10)
    else if (inf = "jpg" ∨ inf = "jpeg") ∧ (outf = "jpg" ∨ outf = "jpeg") then
      (20, 8/10)
    else if inf = "webp" ∧ outf = "webp" then (10, 6/10)
    else (5, 3/10)
  let ratio := (100 - pc.1) / 100
  { percent := pc.1
    ratio := ratio
    confidence := pc.2
    sample_count := if 7/10 < pc.2 then 100 else 10 }

/-- The `base_confidence` sub-expression of `calculate_confidence` in
`stats.rs` (the `match sample_count` bucketing), factored out so theorems
can speak about the bucketing function itself. -/
def base_confidence (sample_count : Nat) : ℚ :=
  if sample_count = 0 then 0
  else if sample_count ≤ 5 then 3/10
  else if sample_count ≤ 20 then 6/10
  else if sample_count ≤ 50 then 8/10
  else 9/10

/-- `calculate_confidence` from `stats.rs`:
`base_confidence * variance_factor` capped at `1.0`, with
`variance_factor = (1/(1+variance)).min(1.0)` when `variance > 0` and `1.0`
otherwise. -/
def calculate_confidence (sample_count : Nat) (variance : ℚ) : ℚ :=
  let variance_factor : ℚ :=
    if 0 < variance then min (1 / (1 + variance)) 1 else 1
  min (base_confidence sample_count * variance_factor) 1

/-- `StatsError` from `error.rs`. -/
inductive StatsError : Type
  | DatabaseError (msg : String)
  | InvalidQuery (msg : String)
  | NotAvailable
  | SerializationError (msg : String)
deriving DecidableEq, Repr

/-- The row-matching condition of the SQL in
`SqliteStatsStore::get_estimation` (`store.rs`): same `input_format` and
`output_format`, `quality_setting BETWEEN max(q-10,1) AND min(q+10,100)`,
same `lossy_mode`. The bounds are computed in `i32` and cast back to `u8` in
the source; for a `u8` query quality that equals
`max (q - 10) 1` / `min (q + 10) 100` over `Nat` (truncated subtraction
agrees with the `i32` computation once `.max(1)` is applied). -/
def row_matches (query : EstimationQuery) (row : CompressionStat) : Bool :=
  let min_quality := max (query.quality_setting - 10) 1
  let max_quality := min (query.quality_setting + 10) 100
  row.input_format == query.input_format &&
  row.output_format == query.output_format &&
  decide (min_quality ≤ row.quality_setting) &&
  decide (row.quality_setting ≤ max_quality) &&
  row.lossy_mode == query.lossy_mode

/-- `SqliteStatsStore::get_estimation` from `store.rs`, over the logical
table contents `rows`. The SQL aggregate row is `AVG(size_reduction_percent)`
(NULL exactly when no row matches, since the column is NOT NULL), `COUNT(*)`,
and `STDEV(size_reduction_percent)`. `STDEV` takes a square root and is not
rational-valued, so it is supplied as the oracle argument `stdev` applied to
the matched rows' percentages; the claims under verification only exercise
the zero-match branch, where `stdev` is never consulted. The `None`-average
branch builds fallback settings
`CompressionSettings::new(quality, from_string(output).unwrap_or(WebP))`
and delegates to `estimate_compression`. -/
def get_estimation (stdev : List ℚ → ℚ) (rows : List CompressionStat)
    (query : EstimationQuery) : Except StatsError EstimationResult :=
  let matched := rows.filter (row_matches query)
  match matched with
  | [] =>
      Except.ok (estimate_compression query.input_format query.output_format
        query.original_size
        (CompressionSettings.new query.quality_setting
          ((OutputFormat.from_string query.output_format).getD OutputFormat.WebP)))
  | ms =>
      let avg := (ms.map (fun r => r.size_reduction_percent)).sum / (ms.length : ℚ)
      Except.ok
        { percent := avg
          ratio := (100 - avg) / 100
          confidence := calculate_confidence ms.length (stdev (ms.map (fun r => r.size_reduction_percent)))
          sample_count := ms.length }

/-- `CompressionOutput` from `engine.rs` (`output_path : PathBuf` modelled as
its string form, `savings_percent : f64` as `ℚ`). -/
structure CompressionOutput : Type where
  output_path : String
  original_size : Nat
  compressed_size : Nat
  format : OutputFormat
  savings_percent : ℚ
deriving DecidableEq, Repr

/-- `CompressionOutput::new` from `engine.rs`: the savings formula with the
source's `u64` subtraction `original_size - compressed_size` (see
`u64_sub_wrap`). -/
def CompressionOutput.new (output_path : String)
    (original_size compressed_size : Nat) (format : OutputFormat) :
    CompressionOutput :=
  let savings_percent : ℚ :=
    if 0 < original_size then
      ((u64_sub_wrap original_size compressed_size : ℚ) / (original_size : ℚ)) * 100
    else 0
  { output_path := output_path
    original_size := original_size
    compressed_size := compressed_size
    format := format
    savings_percent := savings_percent }

/-- The WebP encode action chosen by `compress_to_webp_file` (`engine.rs`):
`encoder.encode_lossless()` carries no quality parameter;
`encoder.encode(settings.quality as f32)` carries exactly the settings
quality. The surrounding file IO and pixel decoding are outside the model;
this is the encode-policy branch at lines 169–175. -/
inductive WebPEncode : Type
  | lossless
  | lossy (quality : Nat)
deriving DecidableEq, Repr

/-- The branch `if settings.quality >= 90 { encode_lossless() } else
{ encode(settings.quality as f32) }` of `compress_to_webp_file`. -/
def webp_encode_mode (settings : CompressionSettings) : WebPEncode :=
  if 90 ≤ settings.quality then WebPEncode.lossless
  else WebPEncode.lossy settings.quality

namespace Prediction

/-- The `sample_factor` sub-expression of
`CompressionPredictionService::calculate_confidence` (`prediction.rs`): the
`match sample_count` bucketing `0..=5 => 0.3`, `6..=20 => 0.6`,
`21..=50 => 0.8`, `_ => 1.0`, factored out so theorems can compare it with
the statistics module's `base_confidence` bucketing. -/
def sample_factor (sample_count : Nat) : ℚ :=
  if sample_count ≤ 5 then 3/10
  else if sample_count ≤ 20 then 6/10
  else if sample_count ≤ 50 then 8/10
  else 1

/-- `CompressionPredictionService::calculate_confidence` from
`prediction.rs`: `(base_confidence * sample_factor).min(1.0)`. -/
def calculate_confidence (base : ℚ) (sample_count : Nat) : ℚ :=
  min (base * sample_factor sample_count) 1

/-- `CompressionPredictionService::adjust_for_size` from `prediction.rs`. -/
def adjust_for_size (base_reduction : ℚ) (file_size : Nat) : ℚ :=
  let size_range := get_size_range file_size
  if size_range = "small" then base_reduction * (8/10)
  else if size_range = "medium" then base_reduction
  else if size_range = "large" then base_reduction * (11/10)
  else base_reduction

end Prediction

/-- `ProgressEstimationQuery` from `progress.rs`. -/
structure ProgressEstimationQuery : Type where
  input_format : String
  output_format : String
  original_size : Nat
  quality_setting : Nat
  lossy_mode : Bool
deriving DecidableEq, Repr

/-- `ProgressEstimation` from `progress.rs` (`confidence : f64` as `ℚ`). -/
structure ProgressEstimation : Type where
  estimated_duration_ms : Nat
  confidence : ℚ
  sample_count : Nat
deriving DecidableEq, Repr

/-- `DEFAULT_COMPRESSION_TIMES` from `progress.rs`: the static
`((input_format, output_format, size_range), duration_ms)` table. -/
def DEFAULT_COMPRESSION_TIMES : List ((String × String × String) × Nat) :=
  [(("png", "webp", "small"), 300),
   (("png", "webp", "medium"), 1200),
   (("png", "webp", "large"), 3000),
   (("png", "png", "small"), 800),
   (("png", "png", "medium"), 2500),
   (("png", "png", "large"), 6000),
   (("jpeg", "webp", "small"), 200),
   (("jpeg", "webp", "medium"), 800),
   (("jpeg", "webp", "large"), 2000),
   (("jpeg", "jpeg", "small"), 150),
   (("jpeg", "jpeg", "medium"), 500),
   (("jpeg", "jpeg", "large"), 1200),
   (("webp", "webp", "small"), 250),
   (("webp", "webp", "medium"), 900),
   (("webp", "webp", "large"), 2200)]

/-- `normalize_format` from `progress.rs`: lowercase, with `"jpg"` mapped to
`"jpeg"`. -/
def normalize_format (format : String) : String :=
  if to_lowercase format = "jpg" then "jpeg" else to_lowercase format

/-- Exact value of the source expression `(t as f64 * 1.25) as u64` for
`t < 2^50`: `t * 1.25 = t * 5 / 4` is computed exactly in `f64` at these
magnitudes (`t * 5 ≤ 2^53` and division by `4` is exact), and the `as u64`
cast truncates toward zero, i.e. takes the floor — `Nat` division by 4. All
durations this is applied to are ≤ 6000. -/
def webp_lossless_time_factor (t : Nat) : Nat :=
  t * 5 / 4

/-- `ProgressEstimationService::get_fallback_estimation` from `progress.rs`:
table lookup keyed by (normalized input, normalized output, size range) with
the size-only ultimate fallback, then the ×1.25 lossless-WebP adjustment,
packaged with confidence `0.4` and `sample_count 0`. -/
def get_fallback_estimation (query : ProgressEstimationQuery) :
    ProgressEstimation :=
  let size_range := get_size_range query.original_size
  let input_fmt := normalize_format query.input_format
  let output_fmt := normalize_format query.output_format
  let default_time :=
    ((DEFAULT_COMPRESSION_TIMES.find? (fun e =>
        e.1.1 == input_fmt && e.1.2.1 == output_fmt && e.1.2.2 == size_range)).map
      (fun e => e.2)).getD
      (if size_range == "small" then 300
       else if size_range == "medium" then 1000
       else if size_range == "large" then 2500
       else 1000)
  let adjusted_time :=
    if output_fmt == "webp" && !(input_fmt == "webp") && !query.lossy_mode then
      webp_lossless_time_factor default_time
    else default_time
  { estimated_duration_ms := adjusted_time
    confidence := 2/5
    sample_count := 0 }

/-- `ProgressEstimationService::get_time_estimation_from_db` from
`progress.rs`: the source returns `Ok(None)` unconditionally ("For now,
return None to use fallback"). -/
def get_time_estimation_from_db (_query : EstimationQuery) :
    Except StatsError (Option ProgressEstimation) :=
  Except.ok none

/-- `ProgressEstimationService::estimate_duration` from `progress.rs`: uses
the historical estimate when the database yields one, otherwise (no data or
error) the fallback. -/
def estimate_duration (query : ProgressEstimationQuery) :
    Except StatsError ProgressEstimation :=
  let estimation_query : EstimationQuery :=
    { input_format := query.input_format
      output_format := query.output_format
      original_size := query.original_size
      quality_setting := query.quality_setting
      lossy_mode := query.lossy_mode }
  match get_time_estimation_from_db estimation_query with
  | Except.ok (some estimation) => Except.ok estimation
  | Except.ok none => Except.ok (get_fallback_estimation query)
  | Except.error _ => Except.ok (get_fallback_estimation query)

/-- `EasingFunction` from `progress.rs`. -/
inductive EasingFunction : Type
  | Linear
  | EaseOut
  | Bezier (p1 p2 p3 p4 : ℚ)
deriving DecidableEq, Repr

/-- `ProgressConfig` from `progress.rs` (`completion_threshold : f64` as
`ℚ`). -/
structure ProgressConfig : Type where
  estimated_duration_ms : Nat
  update_interval_ms : Nat
  easing_function : EasingFunction
  completion_threshold : ℚ
deriving DecidableEq, Repr

/-- `ProgressCalculator::apply_easing` from `progress.rs`. The source's
`powf` agrees with integer powers on the reachable base `1 - ratio ∈ [0,1]`
(the ratio fed in is always clamped to `[0,1]`). -/
def apply_easing (easing : EasingFunction) (ratio : ℚ) : ℚ :=
  match easing with
  | EasingFunction.Linear => ratio
  | EasingFunction.EaseOut => 1 - (1 - ratio) ^ 3
  | EasingFunction.Bezier _ _ _ _ => 1 - (1 - ratio) ^ 2

/-- The `progress_ratio` sub-expression of
`ProgressCalculator::current_progress` (`progress.rs`): elapsed time as a
fraction of the estimated duration, clamped to `[0,1]`, with the explicit
guard returning `0` when `estimated_duration_ms == 0`. -/
def progress_ratio (config : ProgressConfig) (elapsed_ms : Nat) : ℚ :=
  if 0 < config.estimated_duration_ms then
    min ((elapsed_ms : ℚ) / (config.estimated_duration_ms : ℚ)) 1
  else 0

/-- `ProgressCalculator::current_progress` from `progress.rs`. The
calculator's state is its `ProgressConfig` plus the captured start instant;
the wall clock enters only through `start_time.elapsed().as_millis()`,
passed here as `elapsed_ms`. -/
def current_progress (config : ProgressConfig) (elapsed_ms : Nat) : ℚ :=
  let eased_ratio := apply_easing config.easing_function (progress_ratio config elapsed_ms)
  let capped_progress := eased_ratio * (config.completion_threshold / 100)
  min (capped_progress * 100) config.completion_threshold

/-- `ProgressCalculator::should_continue_updates` from `progress.rs`. -/
def should_continue_updates (config : ProgressConfig) (elapsed_ms : Nat) :
    Bool :=
  decide (current_progress config elapsed_ms < config.completion_threshold)

/-- The set of `CompressionSettings` values producible by the public
constructor and builder methods of `settings.rs` (construction followed by
any chain of `with_*` mutations). -/
inductive Built : CompressionSettings → Prop
  | of_new (quality : Nat) (format : OutputFormat) :
      Built (CompressionSettings.new quality format)
  | of_with_quality {s : CompressionSettings} (quality : Nat) :
      Built s → Built (s.with_quality quality)
  | of_with_metadata_preservation {s : CompressionSettings} (b : Bool) :
      Built s → Built (s.with_metadata_preservation b)
  | of_with_alpha_optimization {s : CompressionSettings} (b : Bool) :
      Built s → Built (s.with_alpha_optimization b)

/-!
## Helper lemmas
-/

/-- `get_size_range` only ever produces the three bucket names. -/
theorem get_size_range_cases (n : Nat) :
    get_size_range n = "small" ∨ get_size_range n = "medium" ∨
      get_size_range n = "large" := by
  unfold get_size_range
  split_ifs <;> simp

theorem base_confidence_nonneg (n : Nat) : 0 ≤ base_confidence n := by
  unfold base_confidence
  split_ifs <;> norm_num

theorem base_confidence_le (n : Nat) : base_confidence n ≤ 9/10 := by
  unfold base_confidence
  split_ifs <;> norm_num

theorem base_confidence_mono {n m : Nat} (h : n ≤ m) :
    base_confidence n ≤ base_confidence m := by
  unfold base_confidence
  split_ifs <;> first | omega | norm_num

theorem current_progress_eq (cfg : ProgressConfig) (elapsed_ms : Nat) :
    current_progress cfg elapsed_ms =
      min (apply_easing cfg.easing_function (progress_ratio cfg elapsed_ms) *
        cfg.completion_threshold) cfg.completion_threshold := by
  unfold current_progress
  have h : ∀ a b : ℚ, a * (b / 100) * 100 = a * b := by intro a b; ring
  dsimp only
  rw [h]

theorem progress_ratio_nonneg (cfg : ProgressConfig) (e : Nat) :
    0 ≤ progress_ratio cfg e := by
  unfold progress_ratio
  split_ifs with h
  · exact le_min (by positivity) zero_le_one
  · exact le_refl 0

theorem progress_ratio_le_one (cfg : ProgressConfig) (e : Nat) :
    progress_ratio cfg e ≤ 1 := by
  unfold progress_ratio
  split_ifs with h
  · exact min_le_right _ _
  · exact zero_le_one

theorem progress_ratio_lt_one {cfg : ProgressConfig} {e : Nat}
    (h : e < cfg.estimated_duration_ms ∨ cfg.estimated_duration_ms = 0) :
    progress_ratio cfg e < 1 := by
  unfold progress_ratio
  rcases h with h | h
  · have hd : 0 < cfg.estimated_duration_ms := by omega
    rw [if_pos hd]
    have : (e : ℚ) / (cfg.estimated_duration_ms : ℚ) < 1 := by
      rw [div_lt_one (by exact_mod_cast hd)]
      exact_mod_cast h
    exact lt_of_le_of_lt (min_le_left _ _) this
  · rw [if_neg (by omega)]
    exact zero_lt_one

theorem progress_ratio_eq_one {cfg : ProgressConfig} {e : Nat}
    (hd : 0 < cfg.estimated_duration_ms) (he : cfg.estimated_duration_ms ≤ e) :
    progress_ratio cfg e = 1 := by
  unfold progress_ratio
  rw [if_pos hd]
  refine min_eq_right ?_
  rw [le_div_iff₀ (by exact_mod_cast hd), one_mul]
  exact_mod_cast he

theorem progress_ratio_mono (cfg : ProgressConfig) {e1 e2 : Nat}
    (h : e1 ≤ e2) : progress_ratio cfg e1 ≤ progress_ratio cfg e2 := by
  unfold progress_ratio
  split_ifs with hd
  · refine min_le_min ?_ le_rfl
    exact (div_le_div_iff_of_pos_right (by exact_mod_cast hd)).mpr
      (by exact_mod_cast h)
  · exact le_refl 0

theorem apply_easing_zero (ef : EasingFunction) : apply_easing ef 0 = 0 := by
  cases ef <;> norm_num [apply_easing]

theorem apply_easing_one (ef : EasingFunction) : apply_easing ef 1 = 1 := by
  cases ef <;> norm_num [apply_easing]

theorem apply_easing_mono (ef : EasingFunction) {r1 r2 : ℚ}
    (h0 : 0 ≤ r1) (h2 : r2 ≤ 1) (h : r1 ≤ r2) :
    apply_easing ef r1 ≤ apply_easing ef r2 := by
  cases ef with
  | Linear => exact h
  | EaseOut =>
      have := pow_le_pow_left₀ (by linarith : (0:ℚ) ≤ 1 - r2)
        (by linarith : 1 - r2 ≤ 1 - r1) 3
      simp only [apply_easing]
      linarith
  | Bezier p1 p2 p3 p4 =>
      have := pow_le_pow_left₀ (by linarith : (0:ℚ) ≤ 1 - r2)
        (by linarith : 1 - r2 ≤ 1 - r1) 2
      simp only [apply_easing]
      linarith

theorem apply_easing_le_one (ef : EasingFunction) {r : ℚ}
    (h2 : r ≤ 1) : apply_easing ef r ≤ 1 := by
  cases ef with
  | Linear => exact h2
  | EaseOut =>
      have : 0 ≤ (1 - r) ^ 3 := pow_nonneg (by linarith) 3
      simp only [apply_easing]
      linarith
  | Bezier p1 p2 p3 p4 =>
      have : 0 ≤ (1 - r) ^ 2 := sq_nonneg _
      simp only [apply_easing]
      linarith

theorem apply_easing_nonneg (ef : EasingFunction) {r : ℚ}
    (h0 : 0 ≤ r) (h2 : r ≤ 1) : 0 ≤ apply_easing ef r := by
  cases ef with
  | Linear => exact h0
  | EaseOut =>
      have : (1 - r) ^ 3 ≤ 1 := pow_le_one₀ (by linarith) (by linarith)
      simp only [apply_easing]
      linarith
  | Bezier p1 p2 p3 p4 =>
      have : (1 - r) ^ 2 ≤ 1 := pow_le_one₀ (by linarith) (by linarith)
      simp only [apply_easing]
      linarith

theorem apply_easing_lt_one (ef : EasingFunction) {r : ℚ}
    (h0 : 0 ≤ r) (h1 : r < 1) : apply_easing ef r < 1 := by
  cases ef with
  | Linear => exact h1
  | EaseOut =>
      have : 0 < (1 - r) ^ 3 := pow_pos (by linarith) 3
      simp only [apply_easing]
      linarith
  | Bezier p1 p2 p3 p4 =>
      have : 0 < (1 - r) ^ 2 := pow_pos (by linarith) 2
      simp only [apply_easing]
      linarith

/-!
## Claim theorems
-/

/-- Claim C8: `CompressionSettings::new(q, _)` clamps every quality input
into `[1,100]` (`q < 1 ↦ 1`, `q > 100 ↦ 100`), every builder operation
preserves quality in `[1,100]`, and any settings value produced by
construction and builder mutation satisfies `is_valid`. -/
theorem C8_settings_never_invalid (q q2 : Nat) (f : OutputFormat)
    (s : CompressionSettings) (b : Bool) :
    (1 ≤ (CompressionSettings.new q f).quality ∧
      (CompressionSettings.new q f).quality ≤ 100) ∧
    (q < 1 → (CompressionSettings.new q f).quality = 1) ∧
    (100 < q → (CompressionSettings.new q f).quality = 100) ∧
    (1 ≤ (s.with_quality q2).quality ∧ (s.with_quality q2).quality ≤ 100) ∧
    (s.with_metadata_preservation b).quality = s.quality ∧
    (s.with_alpha_optimization b).quality = s.quality ∧
    (Built s → s.is_valid = true) := by
  refine ⟨⟨?_, ?_⟩, ?_, ?_, ⟨?_, ?_⟩, rfl, rfl, ?_⟩
  · simp only [CompressionSettings.new]; omega
  · simp only [CompressionSettings.new]; omega
  · intro h; simp only [CompressionSettings.new]; omega
  · intro h; simp only [CompressionSettings.new]; omega
  · simp only [CompressionSettings.with_quality]; omega
  · simp only [CompressionSettings.with_quality]; omega
  · intro h
    induction h with
    | of_new quality format =>
        simp only [CompressionSettings.is_valid, CompressionSettings.new,
          Bool.and_eq_true, decide_eq_true_eq]
        omega
    | of_with_quality quality _ _ =>
        simp only [CompressionSettings.is_valid,
          CompressionSettings.with_quality, Bool.and_eq_true,
          decide_eq_true_eq]
        omega
    | of_with_metadata_preservation b' _ ih =>
        simpa only [CompressionSettings.is_valid,
          CompressionSettings.with_metadata_preservation] using ih
    | of_with_alpha_optimization b' _ ih =>
        simpa only [CompressionSettings.is_valid,
          CompressionSettings.with_alpha_optimization] using ih

/-- Witness for C8: the clamping and validity facts at concrete inputs
(quality 0 clamps to 1, 150 clamps to 100, a built value is valid). -/
theorem C8_settings_never_invalid_witness :
    (CompressionSettings.new 0 OutputFormat.WebP).quality = 1 ∧
    (CompressionSettings.new 150 OutputFormat.WebP).quality = 100 ∧
    ((CompressionSettings.new 95 OutputFormat.WebP).with_quality 200).is_valid
      = true := by
  refine ⟨?_, ?_, ?_⟩
  · exact (C8_settings_never_invalid 0 0 OutputFormat.WebP
      (CompressionSettings.new 1 OutputFormat.WebP) true).2.1 (by omega)
  · exact (C8_settings_never_invalid 150 0 OutputFormat.WebP
      (CompressionSettings.new 1 OutputFormat.WebP) true).2.2.1 (by omega)
  · exact (C8_settings_never_invalid 0 0 OutputFormat.WebP
      ((CompressionSettings.new 95 OutputFormat.WebP).with_quality 200)
      true).2.2.2.2.2.2
      (Built.of_with_quality 200 (Built.of_new 95 OutputFormat.WebP))

/-- Claim C4: `calculate_confidence(sample_count, variance)` equals the
bucketed base confidence (0 ↦ 0.0, 1–5 ↦ 0.3, 6–20 ↦ 0.6, 21–50 ↦ 0.8,
else 0.9) times the variance factor (`1/(1+variance)` for positive
variance, `1` otherwise); it lies in `[0,1]`, is `0` at zero samples, is
non-decreasing in the sample count for fixed variance, and never exceeds
`1`. -/
theorem C4_calculate_confidence_spec (n : Nat) (v : ℚ) :
    calculate_confidence n v
        = base_confidence n * (if 0 < v then 1 / (1 + v) else 1) ∧
    0 ≤ calculate_confidence n v ∧
    calculate_confidence n v ≤ 1 ∧
    (n = 0 → calculate_confidence n v = 0) ∧
    (∀ m : Nat, n ≤ m → calculate_confidence n v ≤ calculate_confidence m v) := by
  have hvf_le_one : (if 0 < v then min (1 / (1 + v)) 1 else 1) ≤ 1 := by
    split_ifs with h
    · exact min_le_right _ _
    · exact le_rfl
  have hvf_nonneg : 0 ≤ (if 0 < v then min (1 / (1 + v)) 1 else 1) := by
    split_ifs with h
    · exact le_min (by positivity) zero_le_one
    · exact zero_le_one
  have hmin_noop : ∀ k : Nat,
      calculate_confidence k v
        = base_confidence k * (if 0 < v then min (1 / (1 + v)) 1 else 1) := by
    intro k
    unfold calculate_confidence
    dsimp only
    refine min_eq_left ?_
    calc base_confidence k * (if 0 < v then min (1 / (1 + v)) 1 else 1)
        ≤ (9/10) * 1 :=
          mul_le_mul (base_confidence_le k) hvf_le_one hvf_nonneg (by norm_num)
      _ ≤ 1 := by norm_num
  have hinner : (if 0 < v then min (1 / (1 + v)) 1 else 1)
      = (if 0 < v then 1 / (1 + v) else 1) := by
    split_ifs with h
    · refine min_eq_left ?_
      rw [div_le_one (by linarith)]
      linarith
    · rfl
  refine ⟨?_, ?_, ?_, ?_, ?_⟩
  · rw [hmin_noop, hinner]
  · rw [hmin_noop]
    exact mul_nonneg (base_confidence_nonneg n) hvf_nonneg
  · exact min_le_right _ _
  · intro h
    subst h
    rw [hmin_noop]
    simp [base_confidence]
  · intro m hm
    rw [hmin_noop n, hmin_noop m]
    exact mul_le_mul_of_nonneg_right (base_confidence_mono hm) hvf_nonneg

/-- Witness for C4: the zero-sample case and monotonicity at concrete
inputs. -/
theorem C4_calculate_confidence_spec_witness :
    calculate_confidence 0 5 = 0 ∧
    calculate_confidence 3 1 ≤ calculate_confidence 10 1 := by
  refine ⟨?_, ?_⟩
  · exact (C4_calculate_confidence_spec 0 5).2.2.2.1 rfl
  · exact (C4_calculate_confidence_spec 3 1).2.2.2.2 10 (by omega)

/-- Counterexample for C9: the Prediction Service's sample-count bucketing
(`sample_factor`) differs from the statistics module's `base_confidence`
bucketing at `sample_count = 0` (0.3 vs 0.0) and above 50 (1.0 vs 0.9). -/
theorem C9_bucketing_counterexample :
    Prediction.sample_factor 0 ≠ base_confidence 0 ∧
    Prediction.sample_factor 0 = 3/10 ∧ base_confidence 0 = 0 ∧
    Prediction.sample_factor 51 = 1 ∧ base_confidence 51 = 9/10 := by
  norm_num [Prediction.sample_factor, base_confidence]

/-- Claim C9, amended: the two bucketing functions agree on sample counts
1–50 (1–5 ↦ 0.3, 6–20 ↦ 0.6, 21–50 ↦ 0.8) but differ at 0 (prediction 0.3
vs stats 0.0) and above 50 (prediction 1.0 vs stats 0.9). -/
theorem C9_bucketing_amended (n : Nat) :
    (1 ≤ n → n ≤ 50 → Prediction.sample_factor n = base_confidence n) ∧
    (50 < n → Prediction.sample_factor n = 1 ∧ base_confidence n = 9/10) ∧
    (n = 0 → Prediction.sample_factor n = 3/10 ∧ base_confidence n = 0) := by
  unfold Prediction.sample_factor base_confidence
  refine ⟨?_, ?_, ?_⟩ <;> intros <;> split_ifs <;>
    first | rfl | omega | (constructor <;> first | rfl | omega)

/-- Witness for C9 (amended): agreement at 7, divergence endpoints at 0 and
51. -/
theorem C9_bucketing_amended_witness :
    Prediction.sample_factor 7 = base_confidence 7 ∧
    Prediction.sample_factor 51 = 1 ∧
    base_confidence 0 = 0 := by
  refine ⟨?_, ?_, ?_⟩
  · exact (C9_bucketing_amended 7).1 (by omega) (by omega)
  · exact ((C9_bucketing_amended 51).2.1 (by omega)).1
  · exact ((C9_bucketing_amended 0).2.2 rfl).2

/-- Counterexample for C6: with the default-style config (duration 1000 ms,
threshold 95, linear easing), at elapsed = 1000 ms — before any completion
event — `current_progress()` equals the completion threshold exactly, so it
is not strictly less than the threshold for every elapsed time. -/
theorem C6_progress_reaches_threshold_counterexample :
    current_progress ⟨1000, 50, EasingFunction.Linear, 95⟩ 1000
        = (⟨1000, 50, EasingFunction.Linear, 95⟩ : ProgressConfig).completion_threshold ∧
    ¬(current_progress ⟨1000, 50, EasingFunction.Linear, 95⟩ 1000
        < (⟨1000, 50, EasingFunction.Linear, 95⟩ : ProgressConfig).completion_threshold) := by
  norm_num [current_progress, progress_ratio, apply_easing]

/-- Claim C6, amended: for a positive completion threshold,
`current_progress()` stays strictly below the threshold while elapsed time
is less than the estimated duration (and forever when the estimated
duration is 0); once elapsed reaches a positive estimated duration, it
equals the threshold exactly rather than approaching it asymptotically. -/
theorem C6_progress_below_threshold_before_duration
    (cfg : ProgressConfig) (elapsed_ms : Nat)
    (hthr : 0 < cfg.completion_threshold) :
    ((elapsed_ms < cfg.estimated_duration_ms ∨ cfg.estimated_duration_ms = 0) →
      current_progress cfg elapsed_ms < cfg.completion_threshold) ∧
    (0 < cfg.estimated_duration_ms → cfg.estimated_duration_ms ≤ elapsed_ms →
      current_progress cfg elapsed_ms = cfg.completion_threshold) := by
  constructor
  · intro hcase
    rw [current_progress_eq]
    have h1 : apply_easing cfg.easing_function (progress_ratio cfg elapsed_ms) < 1 :=
      apply_easing_lt_one _ (progress_ratio_nonneg cfg elapsed_ms)
        (progress_ratio_lt_one hcase)
    have h2 : apply_easing cfg.easing_function (progress_ratio cfg elapsed_ms) *
        cfg.completion_threshold < cfg.completion_threshold := by
      calc apply_easing cfg.easing_function (progress_ratio cfg elapsed_ms) *
            cfg.completion_threshold
          < 1 * cfg.completion_threshold :=
            mul_lt_mul_of_pos_right h1 hthr
        _ = cfg.completion_threshold := one_mul _
    exact lt_of_le_of_lt (min_le_left _ _) h2
  · intro hd hde
    rw [current_progress_eq, progress_ratio_eq_one hd hde, apply_easing_one,
      one_mul, min_self]

/-- Witness for C6 (amended): with the default config, progress is strictly
below 95 at 500 ms and equals 95 at 2000 ms. -/
theorem C6_progress_below_threshold_before_duration_witness :
    current_progress ⟨1000, 50, EasingFunction.EaseOut, 95⟩ 500 < 95 ∧
    current_progress ⟨1000, 50, EasingFunction.EaseOut, 95⟩ 2000 = 95 := by
  refine ⟨?_, ?_⟩
  · exact (C6_progress_below_threshold_before_duration
      ⟨1000, 50, EasingFunction.EaseOut, 95⟩ 500 (by norm_num)).1
      (Or.inl (by norm_num))
  · exact (C6_progress_below_threshold_before_duration
      ⟨1000, 50, EasingFunction.EaseOut, 95⟩ 2000 (by norm_num)).2
      (by norm_num) (by norm_num)

/-- Claim C7: for every fixed `ProgressConfig` (any easing function —
Linear, EaseOut, or Bezier), `current_progress()` is monotonically
non-decreasing in elapsed time and never exceeds the completion
threshold. -/
theorem C7_progress_monotone_bounded (cfg : ProgressConfig) (e1 e2 : Nat) :
    (e1 ≤ e2 → current_progress cfg e1 ≤ current_progress cfg e2) ∧
    current_progress cfg e1 ≤ cfg.completion_threshold := by
  constructor
  · intro h
    rw [current_progress_eq, current_progress_eq]
    rcases le_or_lt 0 cfg.completion_threshold with hthr | hthr
    · refine min_le_min ?_ le_rfl
      exact mul_le_mul_of_nonneg_right
        (apply_easing_mono _ (progress_ratio_nonneg cfg e1)
          (progress_ratio_le_one cfg e2) (progress_ratio_mono cfg h)) hthr
    · have hc : ∀ e : Nat,
          cfg.completion_threshold ≤
            apply_easing cfg.easing_function (progress_ratio cfg e) *
              cfg.completion_threshold := by
        intro e
        calc cfg.completion_threshold
            = 1 * cfg.completion_threshold := (one_mul _).symm
          _ ≤ apply_easing cfg.easing_function (progress_ratio cfg e) *
                cfg.completion_threshold :=
              mul_le_mul_of_nonpos_right
                (apply_easing_le_one _ (progress_ratio_le_one cfg e)) hthr.le
      rw [min_eq_right (hc e1), min_eq_right (hc e2)]
  · rw [current_progress_eq]
    exact min_le_right _ _

/-- Witness for C7: monotonicity between 200 ms and 700 ms under the
quadratic Bezier easing. -/
theorem C7_progress_monotone_bounded_witness :
    current_progress ⟨1000, 50, EasingFunction.Bezier 0 0 1 1, 95⟩ 200 ≤
      current_progress ⟨1000, 50, EasingFunction.Bezier 0 0 1 1, 95⟩ 700 ∧
    current_progress ⟨1000, 50, EasingFunction.Bezier 0 0 1 1, 95⟩ 200 ≤ 95 := by
  refine ⟨?_, ?_⟩
  · exact (C7_progress_monotone_bounded
      ⟨1000, 50, EasingFunction.Bezier 0 0 1 1, 95⟩ 200 700).1 (by omega)
  · exact (C7_progress_monotone_bounded
      ⟨1000, 50, EasingFunction.Bezier 0 0 1 1, 95⟩ 200 700).2

/-- Counterexample for C10: with a zero estimated duration and a negative
completion threshold, `current_progress()` returns the threshold
(`min 0 threshold`), not `0.0`, so the unrestricted claim fails. -/
theorem C10_zero_duration_counterexample :
    current_progress ⟨0, 50, EasingFunction.Linear, -1⟩ 123 = -1 ∧
    (-1 : ℚ) ≠ 0 := by
  norm_num [current_progress, progress_ratio, apply_easing]

/-- Claim C10, amended: if `estimated_duration_ms == 0` then for every
elapsed time `current_progress()` returns `min 0 completion_threshold` —
which is `0.0` whenever the threshold is non-negative (the division is
explicitly guarded, so no division by zero occurs) — and
`should_continue_updates()` returns `true` forever whenever
`completion_threshold > 0`. -/
theorem C10_zero_duration_never_advances (cfg : ProgressConfig)
    (elapsed_ms : Nat) (hd : cfg.estimated_duration_ms = 0) :
    current_progress cfg elapsed_ms = min 0 cfg.completion_threshold ∧
    (0 ≤ cfg.completion_threshold → current_progress cfg elapsed_ms = 0) ∧
    (0 < cfg.completion_threshold →
      should_continue_updates cfg elapsed_ms = true) := by
  have h0 : progress_ratio cfg elapsed_ms = 0 := by
    simp [progress_ratio, hd]
  have hcp : current_progress cfg elapsed_ms = min 0 cfg.completion_threshold := by
    rw [current_progress_eq, h0, apply_easing_zero, zero_mul]
  refine ⟨hcp, ?_, ?_⟩
  · intro h
    rw [hcp, min_eq_left h]
  · intro h
    rw [should_continue_updates, decide_eq_true_eq, hcp, min_eq_left h.le]
    exact h

/-- Witness for C10 (amended): a zero-duration config with threshold 95
stays at progress 0 and keeps updating at elapsed 77777 ms. -/
theorem C10_zero_duration_never_advances_witness :
    current_progress ⟨0, 50, EasingFunction.Linear, 95⟩ 77777 = 0 ∧
    should_continue_updates ⟨0, 50, EasingFunction.Linear, 95⟩ 77777 = true := by
  refine ⟨?_, ?_⟩
  · exact (C10_zero_duration_never_advances
      ⟨0, 50, EasingFunction.Linear, 95⟩ 77777 rfl).2.1 (by norm_num)
  · exact (C10_zero_duration_never_advances
      ⟨0, 50, EasingFunction.Linear, 95⟩ 77777 rfl).2.2 (by norm_num)

/-- Claim C1 (code bug, evaluated at the failing input): when
`compressed_size` exceeds `original_size` — a case the spec explicitly
permits — the `u64` subtraction in `CompressionOutput::new` and
`create_stat` wraps modulo `2^64` (release semantics; a checked build
panics) instead of producing the negative percentage
`((original − compressed)/original)·100` the claim states. At
`original_size = 1000`, `compressed_size = 1500` the code yields
`(2^64 − 500)/10 ≈ 1.8·10^18`, not `−50`; the formula and the
`original_size = 0` guard do hold when `compressed_size ≤ original_size`. -/
theorem C1_savings_percent_underflow :
    (CompressionOutput.new "out.webp" 1000 1500 OutputFormat.WebP).savings_percent
        = (2 ^ 64 - 500 : ℚ) / 10 ∧
    (CompressionOutput.new "out.webp" 1000 1500 OutputFormat.WebP).savings_percent
        ≠ ((1000 - 1500 : ℚ) / 1000) * 100 ∧
    (create_stat "png" "webp" 1000 1500
        (CompressionSettings.new 80 OutputFormat.WebP) "t").size_reduction_percent
        ≠ -50 ∧
    (CompressionOutput.new "out.webp" 1000 600 OutputFormat.WebP).savings_percent
        = 40 ∧
    (create_stat "png" "webp" 1000 600
        (CompressionSettings.new 80 OutputFormat.WebP) "t").size_reduction_percent
        = 40 ∧
    (CompressionOutput.new "out.webp" 0 600 OutputFormat.WebP).savings_percent
        = 0 := by
  norm_num [CompressionOutput.new, create_stat, u64_sub_wrap]

/-- Claim C2: for settings targeting WebP, quality ≥ 90 selects the
lossless WebP encode (which carries no numeric quality) and yields a stat
with `lossy_mode = false`; quality < 90 selects the lossy encode at exactly
the settings quality and yields `lossy_mode = true`. -/
theorem C2_webp_quality_threshold (s : CompressionSettings)
    (inf outf : String) (os cs : Nat) (now : String) :
    (90 ≤ s.quality →
      webp_encode_mode s = WebPEncode.lossless ∧
      (create_stat inf outf os cs s now).lossy_mode = false) ∧
    (s.quality < 90 →
      webp_encode_mode s = WebPEncode.lossy s.quality ∧
      (create_stat inf outf os cs s now).lossy_mode = true) := by
  constructor
  · intro h
    constructor
    · rw [webp_encode_mode, if_pos h]
    · simp only [create_stat, decide_eq_false_iff_not, not_lt]
      exact h
  · intro h
    constructor
    · rw [webp_encode_mode, if_neg (by omega)]
    · simp only [create_stat, decide_eq_true_eq]
      exact h

/-- Witness for C2: quality 95 (the spec's end-to-end scenario) gives a
lossless encode and a non-lossy stat; quality 80 gives a lossy encode at 80
and a lossy stat. -/
theorem C2_webp_quality_threshold_witness :
    webp_encode_mode (CompressionSettings.new 95 OutputFormat.WebP)
        = WebPEncode.lossless ∧
    (create_stat "png" "webp" 100 50
        (CompressionSettings.new 95 OutputFormat.WebP) "t").lossy_mode = false ∧
    webp_encode_mode (CompressionSettings.new 80 OutputFormat.WebP)
        = WebPEncode.lossy 80 ∧
    (create_stat "png" "webp" 100 50
        (CompressionSettings.new 80 OutputFormat.WebP) "t").lossy_mode = true := by
  have h95 := (C2_webp_quality_threshold
    (CompressionSettings.new 95 OutputFormat.WebP) "png" "webp" 100 50 "t").1
    (by norm_num [CompressionSettings.new])
  have h80 := (C2_webp_quality_threshold
    (CompressionSettings.new 80 OutputFormat.WebP) "png" "webp" 100 50 "t").2
    (by norm_num [CompressionSettings.new])
  exact ⟨h95.1, h95.2, h80.1, h80.2⟩

/-- Counterexample for C3: with zero matching rows, `get_estimation` for a
png→webp lossy-quality query returns the heuristic percent/ratio/confidence
but `sample_count = 100` (the source's simulated count), not
`sample_count = 0` as the claim states. -/
theorem C3_fallback_sample_count_counterexample :
    get_estimation (fun _ => 0) []
        ⟨"png", "webp", 500000, 80, true⟩
      = Except.ok ⟨85, 3/20, 9/10, 100⟩ ∧
    Except.map EstimationResult.sample_count
        (get_estimation (fun _ => 0) [] ⟨"png", "webp", 500000, 80, true⟩)
      ≠ Except.ok 0 := by
  have h : get_estimation (fun _ => 0) []
      (⟨"png", "webp", 500000, 80, true⟩ : EstimationQuery)
      = Except.ok ⟨85, 3/20, 9/10, 100⟩ := by
    simp +decide [get_estimation, estimate_compression, CompressionSettings.new]
    norm_num
  refine ⟨h, ?_⟩
  rw [h]
  simp [Except.map]

/-- Claim C3, amended: for every estimation query with zero matching
historical rows, `get_estimation` returns exactly the static heuristic for
the (input, output) format pair — png→webp at lossy quality 85.0/0.9,
png→webp lossless 43.0/0.8, jpeg→webp 25.0/0.7, png→png 15.0/0.9,
jpeg→jpeg 20.0/0.8, webp→webp 10.0/0.6, unknown pairs 5.0/0.3 — with
`ratio = (100 − percent)/100`; `sample_count` is the simulated value 100
for pairs whose heuristic confidence exceeds 0.7 and 10 otherwise (never
0). Being a pure function of the query, the result is the same on every
invocation. -/
theorem C3_fallback_static_heuristic (stdev : List ℚ → ℚ)
    (rows : List CompressionStat) (q : EstimationQuery) (r : EstimationResult)
    (hmatch : rows.filter (row_matches q) = [])
    (hres : get_estimation stdev rows q = Except.ok r) :
    r.ratio = (100 - r.percent) / 100 ∧
    (to_lowercase q.input_format = "png" →
      to_lowercase q.output_format = "webp" →
      (min (max q.quality_setting 1) 100 < 90 →
        (r.percent, r.confidence, r.sample_count) = (85, 9/10, 100)) ∧
      (90 ≤ min (max q.quality_setting 1) 100 →
        (r.percent, r.confidence, r.sample_count) = (43, 8/10, 100))) ∧
    ((to_lowercase q.input_format = "jpg" ∨
        to_lowercase q.input_format = "jpeg") →
      to_lowercase q.output_format = "webp" →
      (r.percent, r.confidence, r.sample_count) = (25, 7/10, 10)) ∧
    (to_lowercase q.input_format = "png" →
      to_lowercase q.output_format = "png" →
      (r.percent, r.confidence, r.sample_count) = (15, 9/10, 100)) ∧
    ((to_lowercase q.input_format = "jpg" ∨
        to_lowercase q.input_format = "jpeg") →
      (to_lowercase q.output_format = "jpg" ∨
        to_lowercase q.output_format = "jpeg") →
      (r.percent, r.confidence, r.sample_count) = (20, 8/10, 100)) ∧
    (to_lowercase q.input_format = "webp" →
      to_lowercase q.output_format = "webp" →
      (r.percent, r.confidence, r.sample_count) = (10, 6/10, 10)) ∧
    (¬((to_lowercase q.input_format = "png" ∧
          to_lowercase q.output_format = "webp") ∨
       ((to_lowercase q.input_format = "jpg" ∨
           to_lowercase q.input_format = "jpeg") ∧
          to_lowercase q.output_format = "webp") ∨
       (to_lowercase q.input_format = "png" ∧
          to_lowercase q.output_format = "png") ∨
       ((to_lowercase q.input_format = "jpg" ∨
           to_lowercase q.input_format = "jpeg") ∧
          (to_lowercase q.output_format = "jpg" ∨
            to_lowercase q.output_format = "jpeg")) ∨
       (to_lowercase q.input_format = "webp" ∧
          to_lowercase q.output_format = "webp")) →
      (r.percent, r.confidence, r.sample_count) = (5, 3/10, 10)) := by
  simp only [get_estimation, hmatch, Except.ok.injEq] at hres
  subst hres
  refine ⟨?_, ?_, ?_, ?_, ?_, ?_, ?_⟩
  · simp only [estimate_compression]
  · intro h1 h2
    constructor <;> intro h3
    · simp +decide [estimate_compression, CompressionSettings.new, h1, h2, h3]
      norm_num
    · simp +decide [estimate_compression, CompressionSettings.new, h1, h2]
      split_ifs <;> first | (exfalso; omega) | norm_num | (exfalso; norm_num at *)
  · intro h1 h2
    rcases h1 with h1 | h1 <;>
      simp +decide [estimate_compression, CompressionSettings.new, h1, h2] <;>
      norm_num
  · intro h1 h2
    simp +decide [estimate_compression, CompressionSettings.new, h1, h2]
    norm_num
  · intro h1 h2
    rcases h1 with h1 | h1 <;> rcases h2 with h2 | h2 <;>
      simp +decide [estimate_compression, CompressionSettings.new, h1, h2] <;>
      norm_num
  · intro h1 h2
    simp +decide [estimate_compression, CompressionSettings.new, h1, h2]
    norm_num
  · intro hn
    have hA : ¬(to_lowercase q.input_format = "png" ∧
        to_lowercase q.output_format = "webp") := fun h => hn (Or.inl h)
    have hB : ¬((to_lowercase q.input_format = "jpg" ∨
          to_lowercase q.input_format = "jpeg") ∧
        to_lowercase q.output_format = "webp") :=
      fun h => hn (Or.inr (Or.inl h))
    have hC : ¬(to_lowercase q.input_format = "png" ∧
        to_lowercase q.output_format = "png") :=
      fun h => hn (Or.inr (Or.inr (Or.inl h)))
    have hD : ¬((to_lowercase q.input_format = "jpg" ∨
          to_lowercase q.input_format = "jpeg") ∧
        (to_lowercase q.output_format = "jpg" ∨
          to_lowercase q.output_format = "jpeg")) :=
      fun h => hn (Or.inr (Or.inr (Or.inr (Or.inl h))))
    have hE : ¬(to_lowercase q.input_format = "webp" ∧
        to_lowercase q.output_format = "webp") :=
      fun h => hn (Or.inr (Or.inr (Or.inr (Or.inr h))))
    simp only [estimate_compression]
    rw [if_neg hA, if_neg hB, if_neg hC, if_neg hD, if_neg hE]
    norm_num

/-- Witness for C3 (amended): the concrete png→webp lossy query with an
empty store yields the 85.0/0.9 heuristic with simulated sample count
100. -/
theorem C3_fallback_static_heuristic_witness :
    ((⟨85, 3/20, 9/10, 100⟩ : EstimationResult).percent,
     (⟨85, 3/20, 9/10, 100⟩ : EstimationResult).confidence,
     (⟨85, 3/20, 9/10, 100⟩ : EstimationResult).sample_count)
      = (85, 9/10, 100) ∧
    (⟨85, 3/20, 9/10, 100⟩ : EstimationResult).ratio
      = (100 - (⟨85, 3/20, 9/10, 100⟩ : EstimationResult).percent) / 100 := by
  have hres : get_estimation (fun _ => 0) []
      (⟨"png", "webp", 500000, 80, true⟩ : EstimationQuery)
      = Except.ok ⟨85, 3/20, 9/10, 100⟩ := by
    simp +decide [get_estimation, estimate_compression, CompressionSettings.new]
    norm_num
  have hlin : to_lowercase "png" = "png" := by decide
  have hlout : to_lowercase "webp" = "webp" := by decide
  have h := C3_fallback_static_heuristic (fun _ => 0) []
    ⟨"png", "webp", 500000, 80, true⟩ ⟨85, 3/20, 9/10, 100⟩ rfl hres
  exact ⟨(h.2.1 hlin hlout).1 (by norm_num), h.1⟩

/-- Claim C5: with no historical timing data (the database lookup is
stubbed to `Ok(None)`, so every query takes the fallback path),
`estimate_duration` returns the static table duration keyed by (normalized
input format, normalized output format, size bucket), multiplied by 1.25 —
computed as `(t as f64 * 1.25) as u64 = t*5/4` — when the output format is
webp, the input format is not webp, and the query is non-lossy; when no
table entry matches, the size-only fallback base of 300/1000/2500 ms for
small/medium/large is used (subject to the same webp adjustment); the
result always carries confidence 0.4 and `sample_count = 0`. -/
theorem C5_fallback_timing (q : ProgressEstimationQuery) :
    estimate_duration q = Except.ok (get_fallback_estimation q) ∧
    (get_fallback_estimation q).confidence = 2/5 ∧
    (get_fallback_estimation q).sample_count = 0 ∧
    (∀ t : Nat,
      ((normalize_format q.input_format, normalize_format q.output_format,
        get_size_range q.original_size), t) ∈ DEFAULT_COMPRESSION_TIMES →
      (get_fallback_estimation q).estimated_duration_ms =
        if normalize_format q.output_format = "webp" ∧
            normalize_format q.input_format ≠ "webp" ∧ q.lossy_mode = false
        then t * 5 / 4 else t) ∧
    ((∀ t : Nat,
        ((normalize_format q.input_format, normalize_format q.output_format,
          get_size_range q.original_size), t) ∉ DEFAULT_COMPRESSION_TIMES) →
      (get_fallback_estimation q).estimated_duration_ms =
        if normalize_format q.output_format = "webp" ∧
            normalize_format q.input_format ≠ "webp" ∧ q.lossy_mode = false
        then (if get_size_range q.original_size = "small" then 300
              else if get_size_range q.original_size = "medium" then 1000
              else 2500) * 5 / 4
        else (if get_size_range q.original_size = "small" then 300
              else if get_size_range q.original_size = "medium" then 1000
              else 2500)) := by
  refine ⟨rfl, rfl, rfl, ?_, ?_⟩
  · intro t ht
    simp only [DEFAULT_COMPRESSION_TIMES, List.mem_cons, List.not_mem_nil,
      or_false, Prod.mk.injEq] at ht
    rcases ht with ⟨⟨h1, h2, h3⟩, rfl⟩ | ⟨⟨h1, h2, h3⟩, rfl⟩ |
        ⟨⟨h1, h2, h3⟩, rfl⟩ | ⟨⟨h1, h2, h3⟩, rfl⟩ | ⟨⟨h1, h2, h3⟩, rfl⟩ |
        ⟨⟨h1, h2, h3⟩, rfl⟩ | ⟨⟨h1, h2, h3⟩, rfl⟩ | ⟨⟨h1, h2, h3⟩, rfl⟩ |
        ⟨⟨h1, h2, h3⟩, rfl⟩ | ⟨⟨h1, h2, h3⟩, rfl⟩ | ⟨⟨h1, h2, h3⟩, rfl⟩ |
        ⟨⟨h1, h2, h3⟩, rfl⟩ | ⟨⟨h1, h2, h3⟩, rfl⟩ | ⟨⟨h1, h2, h3⟩, rfl⟩ |
        ⟨⟨h1, h2, h3⟩, rfl⟩ <;>
      cases hl : q.lossy_mode <;>
      simp +decide [get_fallback_estimation, DEFAULT_COMPRESSION_TIMES,
        webp_lossless_time_factor, h1, h2, h3, hl]
  · intro hni
    have hfind : DEFAULT_COMPRESSION_TIMES.find? (fun e =>
        e.1.1 == normalize_format q.input_format &&
        e.1.2.1 == normalize_format q.output_format &&
        e.1.2.2 == get_size_range q.original_size) = none := by
      rw [List.find?_eq_none]
      rintro ⟨⟨a, b, c⟩, d⟩ he hp
      simp only [Bool.and_eq_true, beq_iff_eq] at hp
      obtain ⟨⟨ha, hb⟩, hc⟩ := hp
      subst ha hb hc
      exact hni d he
    unfold get_fallback_estimation
    dsimp only
    rw [hfind]
    by_cases hw : normalize_format q.output_format = "webp" <;>
      by_cases hiw : normalize_format q.input_format = "webp" <;>
      cases hl : q.lossy_mode <;>
      rcases get_size_range_cases q.original_size with hs | hs | hs <;>
      simp +decide [hw, hiw, hl, hs, webp_lossless_time_factor]

/-- Witness for C5: png→webp/small lossy uses the table's 300 ms entry;
png→webp/small lossless gets the ×1.25 adjustment (375 ms); an unknown
gif→tiff large query uses the size-only 2500 ms fallback; confidence is
0.4 and sample count 0 throughout. -/
theorem C5_fallback_timing_witness :
    estimate_duration ⟨"png", "webp", 500000, 80, true⟩
      = Except.ok (get_fallback_estimation ⟨"png", "webp", 500000, 80, true⟩) ∧
    (get_fallback_estimation ⟨"png", "webp", 500000, 80, true⟩).estimated_duration_ms
      = 300 ∧
    (get_fallback_estimation ⟨"png", "webp", 500000, 80, true⟩).confidence = 2/5 ∧
    (get_fallback_estimation ⟨"png", "webp", 500000, 80, true⟩).sample_count = 0 ∧
    (get_fallback_estimation ⟨"png", "webp", 500000, 95, false⟩).estimated_duration_ms
      = 375 ∧
    (get_fallback_estimation ⟨"gif", "tiff", 8000000, 50, true⟩).estimated_duration_ms
      = 2500 := by
  have h1 := C5_fallback_timing ⟨"png", "webp", 500000, 80, true⟩
  have h2 := C5_fallback_timing ⟨"png", "webp", 500000, 95, false⟩
  have h3 := C5_fallback_timing ⟨"gif", "tiff", 8000000, 50, true⟩
  refine ⟨h1.1, ?_, h1.2.1, h1.2.2.1, ?_, ?_⟩
  · have := h1.2.2.2.1 300 (by decide)
    simpa using this
  · have := h2.2.2.2.1 300 (by decide)
    simpa using this
  · have := h3.2.2.2.2 (by
      intro t ht
      simp +decide [DEFAULT_COMPRESSION_TIMES] at ht)
    simpa using this

end Plume
